import Mathlib

/-!
Verification development for the `VideoAreaSelector` library
(`src/js/lib/video-area-selector.js`).

The embedding models the selection engine over exact rational arithmetic:
pointer positions and stored rectangle fields are rationals, video native
and displayed dimensions are naturals (they come from the integer-valued
DOM properties `videoWidth`/`videoHeight`/`clientWidth`/`clientHeight`).
`Math.round` and `Number.toFixed(6)` both round half toward positive
infinity, which is modelled by `jround`/`toFixed6` below.  The video box is
placed at the client origin, so event client coordinates coincide with
video-relative coordinates (`getBoundingClientRect().left/top = 0`); none
of the verified properties depend on that offset.
-/

namespace VideoAreaSelector

/-- JavaScript `Math.round`: round half toward positive infinity. -/
def jround (q : ℚ) : ℤ := ⌊q + 1/2⌋

/-- JavaScript `+v.toFixed(6)`: round to 6 decimal places
(ties toward positive infinity). -/
def toFixed6 (q : ℚ) : ℚ := (jround (q * 1000000) : ℚ) / 1000000

/-- `Math.min(Math.max(0, x), hi)` — the clamp used on pointer coordinates. -/
def clamp0 (x hi : ℚ) : ℚ := min (max 0 x) hi

/-- JavaScript `parseInt` applied to a pixel style string written from the
rational value `q` ("12.5px" parses to 12): truncation toward zero. -/
def jsParseInt (q : ℚ) : ℤ := if 0 ≤ q then ⌊q⌋ else ⌈q⌉

/-- The video frame: native (intrinsic) resolution and displayed size,
as read from `videoWidth`/`videoHeight` and `clientWidth`/`clientHeight`. -/
structure Frame where
  nativeWidth : ℕ
  nativeHeight : ℕ
  displayWidth : ℕ
  displayHeight : ℕ
  deriving DecidableEq, Repr

/-- One six-field coordinate group of a `SelectionData` payload. -/
structure CoordGroup where
  left : ℚ
  top : ℚ
  width : ℚ
  height : ℚ
  right : ℚ
  bottom : ℚ
  deriving DecidableEq, Repr

/-- The payload passed to `onChange` and returned by `getSelection`:
absolute native-pixel coordinates, relative (0..1) coordinates, and the
echoed native resolution. -/
structure SelectionData where
  absolute : CoordGroup
  relative : CoordGroup
  videoWidth : ℕ
  videoHeight : ℕ
  deriving DecidableEq, Repr

/-- Shallow embedding of `_updateCoordinates`
(video-area-selector.js lines 489-561): the `SelectionData` snapshot the
engine passes to `onChange`, or `none` when the guards fail (`src` falsy,
native dimensions zero, or display dimensions not positive).  The input
rectangle is clamped into the displayed video box before scaling. -/
def updateCoordinatesData (src : Bool) (f : Frame) (x y width height : ℚ) :
    Option SelectionData :=
  if src = true ∧ f.nativeWidth ≠ 0 ∧ f.nativeHeight ≠ 0 ∧
      0 < f.displayWidth ∧ 0 < f.displayHeight then
    let scaleX : ℚ := (f.nativeWidth : ℚ) / (f.displayWidth : ℚ)
    let scaleY : ℚ := (f.nativeHeight : ℚ) / (f.displayHeight : ℚ)
    let constrainedX : ℚ := clamp0 x (f.displayWidth : ℚ)
    let constrainedY : ℚ := clamp0 y (f.displayHeight : ℚ)
    let constrainedWidth : ℚ := min width ((f.displayWidth : ℚ) - constrainedX)
    let constrainedHeight : ℚ := min height ((f.displayHeight : ℚ) - constrainedY)
    let originalX : ℤ := jround (constrainedX * scaleX)
    let originalY : ℤ := jround (constrainedY * scaleY)
    let originalW : ℤ := jround (constrainedWidth * scaleX)
    let originalH : ℤ := jround (constrainedHeight * scaleY)
    let originalRight : ℤ := (f.nativeWidth : ℤ) - (originalX + originalW)
    let originalBottom : ℤ := (f.nativeHeight : ℤ) - (originalY + originalH)
    some
      { absolute :=
          { left := (originalX : ℚ), top := (originalY : ℚ),
            width := (originalW : ℚ), height := (originalH : ℚ),
            right := (originalRight : ℚ), bottom := (originalBottom : ℚ) }
        relative :=
          { left := toFixed6 ((originalX : ℚ) / (f.nativeWidth : ℚ)),
            top := toFixed6 ((originalY : ℚ) / (f.nativeHeight : ℚ)),
            width := toFixed6 ((originalW : ℚ) / (f.nativeWidth : ℚ)),
            height := toFixed6 ((originalH : ℚ) / (f.nativeHeight : ℚ)),
            right := toFixed6 ((originalRight : ℚ) / (f.nativeWidth : ℚ)),
            bottom := toFixed6 ((originalBottom : ℚ) / (f.nativeHeight : ℚ)) }
        videoWidth := f.nativeWidth
        videoHeight := f.nativeHeight }
  else none

/-- Shallow embedding of the coordinate computation in `getSelection`
(video-area-selector.js lines 596-664), starting from the rectangle fields
already read back from the selection-box style.  Identical to
`updateCoordinatesData` except that the rectangle is *not* clamped into
the displayed video box. -/
def getSelectionData (src : Bool) (f : Frame) (x y width height : ℚ) :
    Option SelectionData :=
  if src = true ∧ f.nativeWidth ≠ 0 ∧ f.nativeHeight ≠ 0 ∧
      0 < f.displayWidth ∧ 0 < f.displayHeight then
    let scaleX : ℚ := (f.nativeWidth : ℚ) / (f.displayWidth : ℚ)
    let scaleY : ℚ := (f.nativeHeight : ℚ) / (f.displayHeight : ℚ)
    let originalX : ℤ := jround (x * scaleX)
    let originalY : ℤ := jround (y * scaleY)
    let originalW : ℤ := jround (width * scaleX)
    let originalH : ℤ := jround (height * scaleY)
    let originalRight : ℤ := (f.nativeWidth : ℤ) - (originalX + originalW)
    let originalBottom : ℤ := (f.nativeHeight : ℤ) - (originalY + originalH)
    some
      { absolute :=
          { left := (originalX : ℚ), top := (originalY : ℚ),
            width := (originalW : ℚ), height := (originalH : ℚ),
            right := (originalRight : ℚ), bottom := (originalBottom : ℚ) }
        relative :=
          { left := toFixed6 ((originalX : ℚ) / (f.nativeWidth : ℚ)),
            top := toFixed6 ((originalY : ℚ) / (f.nativeHeight : ℚ)),
            width := toFixed6 ((originalW : ℚ) / (f.nativeWidth : ℚ)),
            height := toFixed6 ((originalH : ℚ) / (f.nativeHeight : ℚ)),
            right := toFixed6 ((originalRight : ℚ) / (f.nativeWidth : ℚ)),
            bottom := toFixed6 ((originalBottom : ℚ) / (f.nativeHeight : ℚ)) }
        videoWidth := f.nativeWidth
        videoHeight := f.nativeHeight }
  else none

/-- The four corner resize handles. -/
inductive Handle
  | nw
  | ne
  | sw
  | se
  deriving DecidableEq, Repr

/-- The engine's mutable state: the option/flag fields of the
`VideoAreaSelector` instance (constructor lines 20-43), the visibility of
the selection box and overlay, which document-level listeners are
currently registered, and the log of `SelectionData` payloads passed to
`onChange` so far. -/
structure EngineState where
  enabled : Bool
  hasSrc : Bool
  frame : Frame
  isSelecting : Bool
  isResizing : Bool
  activeHandle : Option Handle
  startX : ℚ
  startY : ℚ
  selectionLeft : ℚ
  selectionTop : ℚ
  selectionWidth : ℚ
  selectionHeight : ℚ
  boxVisible : Bool
  overlayVisible : Bool
  lastMoveEvent : Option (ℚ × ℚ)
  docMouseMove : Bool
  docResizeMove : Bool
  docMouseUp : Bool
  published : List SelectionData
  deriving DecidableEq, Repr

/-- The state right after the constructor ran (lines 29-43): no gesture,
no visible box, disabled, no document-level listeners, nothing published. -/
def initialState (f : Frame) (hasSrc : Bool) : EngineState :=
  { enabled := false
    hasSrc := hasSrc
    frame := f
    isSelecting := false
    isResizing := false
    activeHandle := none
    startX := 0
    startY := 0
    selectionLeft := 0
    selectionTop := 0
    selectionWidth := 0
    selectionHeight := 0
    boxVisible := false
    overlayVisible := false
    lastMoveEvent := none
    docMouseMove := false
    docResizeMove := false
    docMouseUp := false
    published := [] }

/-- A call to `this._updateCoordinates(x, y, width, height)`: appends the
produced `SelectionData` (if any) to the `onChange` log.  Only the log
changes. -/
def publish (s : EngineState) (x y w h : ℚ) : EngineState :=
  { s with published :=
      s.published ++ (updateCoordinatesData s.hasSrc s.frame x y w h).toList }

/-- `_handleSelectionStart` (lines 163-216): mousedown on the overlay at
video-relative position `(mx, my)`.  Starts a `Creating` gesture (1x1 box
at the anchor, immediate publish, document-level mousemove listener
attached) unless disabled, without src, outside the video box, or inside
an existing visible selection. -/
def handleSelectionStart (s : EngineState) (mx my : ℚ) : EngineState :=
  if ¬ (s.hasSrc = true ∧ s.enabled = true) then s
  else if mx < 0 ∨ mx > (s.frame.displayWidth : ℚ) ∨
      my < 0 ∨ my > (s.frame.displayHeight : ℚ) then s
  else
    let selBoxLeft : ℚ := (jsParseInt s.selectionLeft : ℚ)
    let selBoxTop : ℚ := (jsParseInt s.selectionTop : ℚ)
    let selBoxWidth : ℚ := (jsParseInt s.selectionWidth : ℚ)
    let selBoxHeight : ℚ := (jsParseInt s.selectionHeight : ℚ)
    if s.boxVisible = true ∧ selBoxLeft ≤ mx ∧ mx ≤ selBoxLeft + selBoxWidth ∧
        selBoxTop ≤ my ∧ my ≤ selBoxTop + selBoxHeight then s
    else
      let s1 := { s with
        isSelecting := true
        startX := mx
        startY := my
        boxVisible := true
        selectionLeft := mx
        selectionTop := my
        selectionWidth := 1
        selectionHeight := 1 }
      let s2 := publish s1 mx my 1 1
      { s2 with docMouseMove := true }

/-- `_handleSelectionMove` (lines 223-262): mousemove delivered to the
overlay at video-relative position `(ex, ey)`.  Only acts during a
`Creating` gesture while enabled with a source. -/
def handleSelectionMove (s : EngineState) (ex ey : ℚ) : EngineState :=
  if s.isSelecting = true ∧ s.hasSrc = true ∧ s.enabled = true then
    let constrainedX := clamp0 ex (s.frame.displayWidth : ℚ)
    let constrainedY := clamp0 ey (s.frame.displayHeight : ℚ)
    let width := max 1 |constrainedX - s.startX|
    let height := max 1 |constrainedY - s.startY|
    let left := min s.startX constrainedX
    let top := min s.startY constrainedY
    let s1 := { s with
      lastMoveEvent := some (ex, ey)
      selectionLeft := left
      selectionTop := top
      selectionWidth := width
      selectionHeight := height }
    publish s1 left top width height
  else s

/-- `_documentMouseMoveHandler` (lines 324-360): the document-level
mousemove handler attached while a `Creating` gesture runs.  Same
computation as `handleSelectionMove`. -/
def documentMouseMoveHandler (s : EngineState) (ex ey : ℚ) : EngineState :=
  if s.isSelecting = true ∧ s.hasSrc = true ∧ s.enabled = true then
    let constrainedX := clamp0 ex (s.frame.displayWidth : ℚ)
    let constrainedY := clamp0 ey (s.frame.displayHeight : ℚ)
    let width := max 1 |constrainedX - s.startX|
    let height := max 1 |constrainedY - s.startY|
    let left := min s.startX constrainedX
    let top := min s.startY constrainedY
    let s1 := { s with
      selectionLeft := left
      selectionTop := top
      selectionWidth := width
      selectionHeight := height
      lastMoveEvent := some (ex, ey) }
    publish s1 left top width height
  else s

/-- `_handleSelectionEnd` (lines 269-282): mouseup delivered to the
overlay.  Removes the document mousemove listener, replays the last
recorded move as a synthetic overlay mousemove (while `isSelecting` is
still true, so the replay is effective), then leaves the gesture. -/
def handleSelectionEnd (s : EngineState) : EngineState :=
  if s.isSelecting = true then
    let s1 := { s with docMouseMove := false }
    let s2 := match s1.lastMoveEvent with
      | some p => handleSelectionMove s1 p.1 p.2
      | none => s1
    { s2 with isSelecting := false }
  else s

/-- `_handleResizeStart` (lines 301-317): mousedown on a corner handle.
Reads the pre-resize rectangle back from the style (`parseInt`) and
attaches the document-level resize mousemove listener. -/
def handleResizeStart (s : EngineState) (h : Handle) : EngineState :=
  if ¬ s.enabled = true then s
  else
    { s with
      isResizing := true
      activeHandle := some h
      selectionLeft := (jsParseInt s.selectionLeft : ℚ)
      selectionTop := (jsParseInt s.selectionTop : ℚ)
      selectionWidth := (jsParseInt s.selectionWidth : ℚ)
      selectionHeight := (jsParseInt s.selectionHeight : ℚ)
      docResizeMove := true }

/-- `_documentResizeHandler` (lines 367-440): the document-level mousemove
handler attached while a `Resizing` gesture runs.  Applies the per-handle
resize rule to the clamped pointer, then the 1-pixel minimum-size clamp
(recomputing `left`/`top` from the fixed corner for W and N handles), stores
the rectangle and publishes. -/
def documentResizeHandler (s : EngineState) (ex ey : ℚ) : EngineState :=
  if s.isResizing = true ∧ s.hasSrc = true ∧ s.enabled = true then
    let constrainedX := clamp0 ex (s.frame.displayWidth : ℚ)
    let constrainedY := clamp0 ey (s.frame.displayHeight : ℚ)
    let raw : ℚ × ℚ × ℚ × ℚ :=
      match s.activeHandle with
      | some Handle.nw =>
          (constrainedX, constrainedY,
           s.selectionLeft + s.selectionWidth - constrainedX,
           s.selectionTop + s.selectionHeight - constrainedY)
      | some Handle.ne =>
          (s.selectionLeft, constrainedY,
           constrainedX - s.selectionLeft,
           s.selectionTop + s.selectionHeight - constrainedY)
      | some Handle.sw =>
          (constrainedX, s.selectionTop,
           s.selectionLeft + s.selectionWidth - constrainedX,
           constrainedY - s.selectionTop)
      | some Handle.se =>
          (s.selectionLeft, s.selectionTop,
           constrainedX - s.selectionLeft,
           constrainedY - s.selectionTop)
      | none =>
          (s.selectionLeft, s.selectionTop, s.selectionWidth, s.selectionHeight)
    let newLeft := raw.1
    let newTop := raw.2.1
    let newWidth := raw.2.2.1
    let newHeight := raw.2.2.2
    let lw : ℚ × ℚ :=
      if newWidth < 1 then
        if s.activeHandle = some Handle.nw ∨ s.activeHandle = some Handle.sw then
          (s.selectionLeft + s.selectionWidth - 1, 1)
        else (newLeft, 1)
      else (newLeft, newWidth)
    let th : ℚ × ℚ :=
      if newHeight < 1 then
        if s.activeHandle = some Handle.nw ∨ s.activeHandle = some Handle.ne then
          (s.selectionTop + s.selectionHeight - 1, 1)
        else (newTop, 1)
      else (newTop, newHeight)
    let s1 := { s with
      selectionLeft := lw.1
      selectionTop := th.1
      selectionWidth := lw.2
      selectionHeight := th.2 }
    publish s1 lw.1 th.1 lw.2 th.2
  else s

/-- `_documentMouseUpHandler` (lines 447-470): the document-level mouseup
handler (attached while enabled).  Ends a `Resizing` gesture; for a
`Creating` gesture it clears `isSelecting` *first*, removes the document
mousemove listener, and then dispatches the recorded last move as a
synthetic overlay mousemove (which the overlay handler ignores, since
`isSelecting` is already false). -/
def documentMouseUpHandler (s : EngineState) : EngineState :=
  let s1 :=
    if s.isResizing = true then
      { s with docResizeMove := false, isResizing := false, activeHandle := none }
    else s
  if s1.isSelecting = true then
    let s2 := { s1 with isSelecting := false, docMouseMove := false }
    match s2.lastMoveEvent with
    | some p => handleSelectionMove s2 p.1 p.2
    | none => s2
  else s1

/-- A document-level mouseup anywhere on the page: runs the engine's
handler only when its listener is currently registered. -/
def dispatchDocumentMouseUp (s : EngineState) : EngineState :=
  if s.docMouseUp = true then documentMouseUpHandler s else s

/-- `enable` (lines 567-573): shows the overlay and attaches the
document-level mouseup listener. -/
def enable (s : EngineState) : EngineState :=
  { s with enabled := true, overlayVisible := true, docMouseUp := true }

/-- `disable` (lines 579-590): hides the overlay and removes the
document-level mouseup listener.  It does not touch the document-level
mousemove listeners. -/
def disable (s : EngineState) : EngineState :=
  { s with enabled := false, overlayVisible := false, docMouseUp := false }

/-- `destroy` (lines 724-737): removes all three document-level
listeners (DOM restoration is not modelled). -/
def destroy (s : EngineState) : EngineState :=
  { s with docMouseMove := false, docMouseUp := false, docResizeMove := false }

/-- `getSelection` (lines 596-664): `none` when no selection box is
shown, otherwise the transform applied to the `parseInt`-read rectangle. -/
def getSelection (s : EngineState) : Option SelectionData :=
  if ¬ s.boxVisible = true then none
  else
    getSelectionData s.hasSrc s.frame
      (jsParseInt s.selectionLeft : ℚ) (jsParseInt s.selectionTop : ℚ)
      (jsParseInt s.selectionWidth : ℚ) (jsParseInt s.selectionHeight : ℚ)

/-- `setSelection` (lines 675-710): converts a native-resolution rectangle
to display coordinates (inverse scale, independent `Math.round`), stores
and shows it, and publishes. -/
def setSelection (s : EngineState) (left top width height : ℚ) : EngineState :=
  if s.hasSrc = true ∧ s.frame.nativeWidth ≠ 0 ∧ s.frame.nativeHeight ≠ 0 ∧
      0 < s.frame.displayWidth ∧ 0 < s.frame.displayHeight then
    let scaleX : ℚ := (s.frame.displayWidth : ℚ) / (s.frame.nativeWidth : ℚ)
    let scaleY : ℚ := (s.frame.displayHeight : ℚ) / (s.frame.nativeHeight : ℚ)
    let displayLeft : ℚ := (jround (left * scaleX) : ℚ)
    let displayTop : ℚ := (jround (top * scaleY) : ℚ)
    let displayWidth : ℚ := (jround (width * scaleX) : ℚ)
    let displayHeight : ℚ := (jround (height * scaleY) : ℚ)
    let s1 := { s with
      selectionLeft := displayLeft
      selectionTop := displayTop
      selectionWidth := displayWidth
      selectionHeight := displayHeight
      boxVisible := true }
    publish s1 displayLeft displayTop displayWidth displayHeight
  else s

/-- `clearSelection` (lines 716-719): hides the selection box and nothing
else — in particular it publishes nothing. -/
def clearSelection (s : EngineState) : EngineState :=
  { s with boxVisible := false }

/-- The per-field native conversion used by `getSelection`
(lines 623-626): `Math.round(v * (nativeSize / displaySize))`. -/
def toNativeLen (native display : ℕ) (v : ℚ) : ℤ :=
  jround (v * ((native : ℚ) / (display : ℚ)))

/-- The per-field display conversion used by `setSelection`
(lines 686-689): `Math.round(v * (displaySize / nativeSize))`. -/
def toDisplayLen (native display : ℕ) (v : ℚ) : ℤ :=
  jround (v * ((display : ℚ) / (native : ℚ)))

/-- Frame used by several concrete witnesses: native 2x2, displayed 2x2. -/
def wFrame : Frame := ⟨2, 2, 2, 2⟩

/-- Payload produced for the full-frame rectangle on `wFrame`. -/
def wData : SelectionData :=
  { absolute := ⟨0, 0, 2, 2, 0, 0⟩
    relative := ⟨0, 0, 1, 1, 0, 0⟩
    videoWidth := 2
    videoHeight := 2 }

/-- Concrete engine state in the middle of a `Creating` gesture, used by
witnesses. -/
def wState : EngineState :=
  { enabled := true
    hasSrc := true
    frame := wFrame
    isSelecting := true
    isResizing := false
    activeHandle := none
    startX := 0
    startY := 0
    selectionLeft := 0
    selectionTop := 0
    selectionWidth := 1
    selectionHeight := 1
    boxVisible := true
    overlayVisible := true
    lastMoveEvent := none
    docMouseMove := true
    docResizeMove := false
    docMouseUp := true
    published := [] }

/-- Concrete engine state in the middle of a `Resizing` gesture on the NW
handle, used by witnesses. -/
def rState : EngineState :=
  { enabled := true
    hasSrc := true
    frame := wFrame
    isSelecting := false
    isResizing := true
    activeHandle := some Handle.nw
    startX := 0
    startY := 0
    selectionLeft := 0
    selectionTop := 0
    selectionWidth := 2
    selectionHeight := 2
    boxVisible := true
    overlayVisible := true
    lastMoveEvent := none
    docMouseMove := false
    docResizeMove := true
    docMouseUp := true
    published := [] }

/-- Engine state reached by enabling a fresh engine on a 1920x1080 video
displayed at 960x540 and pressing the mouse on the overlay at (10, 10):
a `Creating` gesture is active and the document mousemove listener is
attached. -/
def c1gesture : EngineState :=
  handleSelectionStart (enable (initialState ⟨1920, 1080, 960, 540⟩ true)) 10 10

/-- Engine state reached by enabling a fresh engine on a 1920x1080 video
displayed at 960x540, pressing the mouse at displayed (100, 50) and
dragging to displayed (300, 150) via the document-level move handler. -/
def demoGesture : EngineState :=
  documentMouseMoveHandler
    (handleSelectionStart (enable (initialState ⟨1920, 1080, 960, 540⟩ true)) 100 50)
    300 150

/-- Engine state reached on a 3x3 video displayed at 2x2 by programming
the full-frame selection (display rectangle (0,0,2,2)) and then pressing
the NW resize handle: a `Resizing` gesture is active. -/
def c3base : EngineState :=
  handleResizeStart
    (setSelection (enable (initialState ⟨3, 3, 2, 2⟩ true)) 0 0 3 3) Handle.nw

/-! Helper lemmas about the two rounding primitives. -/

theorem jround_le_real (q : ℚ) : (jround q : ℚ) ≤ q + 1/2 := Int.floor_le _

theorem jround_gt_real (q : ℚ) : q - 1/2 < (jround q : ℚ) := by
  have h := Int.lt_floor_add_one (q + 1/2)
  rw [jround]
  push_cast at h ⊢
  linarith

theorem jround_nonneg {q : ℚ} (h : 0 ≤ q) : 0 ≤ jround q :=
  Int.le_floor.mpr (by push_cast; linarith)

theorem int_le_jround {n : ℤ} {q : ℚ} (h : (n : ℚ) ≤ q) : n ≤ jround q :=
  Int.le_floor.mpr (by linarith)

theorem jround_le_int {n : ℤ} {q : ℚ} (h : q ≤ (n : ℚ)) : jround q ≤ n := by
  have h2 : jround q < n + 1 := Int.floor_lt.mpr (by push_cast; linarith)
  omega

theorem toFixed6_nonneg {q : ℚ} (h : 0 ≤ q) : 0 ≤ toFixed6 q := by
  have h2 : (0 : ℤ) ≤ jround (q * 1000000) := jround_nonneg (by linarith)
  rw [toFixed6]
  exact div_nonneg (by exact_mod_cast h2) (by norm_num)

theorem toFixed6_le_one {q : ℚ} (h : q ≤ 1) : toFixed6 q ≤ 1 := by
  have h2 : jround (q * 1000000) ≤ (1000000 : ℤ) := jround_le_int (by push_cast; linarith)
  rw [toFixed6]
  rw [div_le_one (by norm_num : (0:ℚ) < 1000000)]
  exact_mod_cast h2

theorem toFixed6_neg_one_le {q : ℚ} (h : -1 ≤ q) : -1 ≤ toFixed6 q := by
  have h2 : (-1000000 : ℤ) ≤ jround (q * 1000000) := int_le_jround (by push_cast; linarith)
  rw [toFixed6]
  rw [le_div_iff₀ (by norm_num : (0:ℚ) < 1000000)]
  norm_num
  exact_mod_cast h2

theorem toFixed6_div_mem {a : ℤ} {n : ℕ} (hn : 0 < n) (h0 : 0 ≤ a) (h1 : a ≤ (n : ℤ)) :
    0 ≤ toFixed6 ((a : ℚ) / (n : ℚ)) ∧ toFixed6 ((a : ℚ) / (n : ℚ)) ≤ 1 := by
  have hq : (0 : ℚ) < (n : ℚ) := by exact_mod_cast hn
  constructor
  · exact toFixed6_nonneg (div_nonneg (by exact_mod_cast h0) (le_of_lt hq))
  · exact toFixed6_le_one ((div_le_one hq).mpr (by exact_mod_cast h1))

theorem toFixed6_div_mem_neg {a : ℤ} {n : ℕ} (hn : 0 < n) (h0 : -1 ≤ a) (h1 : a ≤ (n : ℤ)) :
    -1 ≤ toFixed6 ((a : ℚ) / (n : ℚ)) ∧ toFixed6 ((a : ℚ) / (n : ℚ)) ≤ 1 := by
  have hq : (0 : ℚ) < (n : ℚ) := by exact_mod_cast hn
  constructor
  · refine toFixed6_neg_one_le ?_
    rw [le_div_iff₀ hq]
    have ha : (-1 : ℚ) ≤ (a : ℚ) := by exact_mod_cast h0
    have hn1 : (1 : ℚ) ≤ (n : ℚ) := by exact_mod_cast hn
    nlinarith
  · exact toFixed6_le_one ((div_le_one hq).mpr (by exact_mod_cast h1))

theorem axis_bounds (n dsp : ℕ) (x w : ℚ) (hn : 0 < n) (hd : 0 < dsp) (hw : 0 ≤ w) :
    0 ≤ jround (clamp0 x (dsp : ℚ) * ((n : ℚ) / (dsp : ℚ))) ∧
    jround (clamp0 x (dsp : ℚ) * ((n : ℚ) / (dsp : ℚ))) ≤ (n : ℤ) ∧
    0 ≤ jround (min w ((dsp : ℚ) - clamp0 x (dsp : ℚ)) * ((n : ℚ) / (dsp : ℚ))) ∧
    jround (min w ((dsp : ℚ) - clamp0 x (dsp : ℚ)) * ((n : ℚ) / (dsp : ℚ))) ≤ (n : ℤ) ∧
    jround (clamp0 x (dsp : ℚ) * ((n : ℚ) / (dsp : ℚ))) +
      jround (min w ((dsp : ℚ) - clamp0 x (dsp : ℚ)) * ((n : ℚ) / (dsp : ℚ))) ≤ (n : ℤ) + 1 := by
  have hdq : (0 : ℚ) < (dsp : ℚ) := by exact_mod_cast hd
  have hnq : (0 : ℚ) < (n : ℚ) := by exact_mod_cast hn
  have hs : (0 : ℚ) ≤ (n : ℚ) / (dsp : ℚ) := le_of_lt (div_pos hnq hdq)
  set cx := clamp0 x (dsp : ℚ) with hcx
  set cw := min w ((dsp : ℚ) - cx) with hcw
  have hcx0 : 0 ≤ cx := le_min (le_max_left 0 x) (le_of_lt hdq)
  have hcxd : cx ≤ (dsp : ℚ) := min_le_right _ _
  have hcw0 : 0 ≤ cw := le_min hw (by linarith)
  have hcwd : cw ≤ (dsp : ℚ) - cx := min_le_right _ _
  have hmul : (dsp : ℚ) * ((n : ℚ) / (dsp : ℚ)) = (n : ℚ) := by
    field_simp
  have ha0 : 0 ≤ cx * ((n : ℚ) / (dsp : ℚ)) := mul_nonneg hcx0 hs
  have han : cx * ((n : ℚ) / (dsp : ℚ)) ≤ (n : ℚ) := by
    calc cx * ((n : ℚ) / (dsp : ℚ)) ≤ (dsp : ℚ) * ((n : ℚ) / (dsp : ℚ)) :=
          mul_le_mul_of_nonneg_right hcxd hs
      _ = (n : ℚ) := hmul
  have hb0 : 0 ≤ cw * ((n : ℚ) / (dsp : ℚ)) := mul_nonneg hcw0 hs
  have hbn : cw * ((n : ℚ) / (dsp : ℚ)) ≤ (n : ℚ) := by
    calc cw * ((n : ℚ) / (dsp : ℚ)) ≤ (dsp : ℚ) * ((n : ℚ) / (dsp : ℚ)) :=
          mul_le_mul_of_nonneg_right (by linarith) hs
      _ = (n : ℚ) := hmul
  have habn : cx * ((n : ℚ) / (dsp : ℚ)) + cw * ((n : ℚ) / (dsp : ℚ)) ≤ (n : ℚ) := by
    have h2 : (cx + cw) * ((n : ℚ) / (dsp : ℚ)) ≤ (dsp : ℚ) * ((n : ℚ) / (dsp : ℚ)) :=
      mul_le_mul_of_nonneg_right (by linarith) hs
    rw [hmul] at h2
    linarith [h2]
  refine ⟨jround_nonneg ha0, jround_le_int han, jround_nonneg hb0, jround_le_int hbn, ?_⟩
  have h1 := jround_le_real (cx * ((n : ℚ) / (dsp : ℚ)))
  have h2 := jround_le_real (cw * ((n : ℚ) / (dsp : ℚ)))
  have h3 : ((jround (cx * ((n : ℚ) / (dsp : ℚ))) + jround (cw * ((n : ℚ) / (dsp : ℚ)))) : ℚ) ≤
      (n : ℚ) + 1 := by
    linarith
  exact_mod_cast h3

theorem jround_roundtrip (s : ℚ) (x : ℤ) (hs : 1/2 ≤ s) :
    |jround ((jround ((x : ℚ) * s) : ℚ) * s⁻¹) - x| ≤ 1 := by
  have hs0 : (0:ℚ) < s := by linarith
  have hsne : s ≠ 0 := ne_of_gt hs0
  have hinv0 : (0:ℚ) < s⁻¹ := inv_pos.mpr hs0
  have h1 : s⁻¹ * s = 1 := inv_mul_cancel₀ hsne
  have hinv2 : s⁻¹ ≤ 2 := by
    have h2 := mul_le_mul_of_nonneg_left hs (le_of_lt hinv0)
    rw [h1] at h2
    linarith
  have hy1 : ((jround ((x : ℚ) * s) : ℤ) : ℚ) ≤ (x : ℚ) * s + 1/2 := jround_le_real _
  have hy2 : (x : ℚ) * s - 1/2 < ((jround ((x : ℚ) * s) : ℤ) : ℚ) := jround_gt_real _
  have e1 : ((x : ℚ) * s) * s⁻¹ = (x : ℚ) := by
    rw [mul_assoc, mul_inv_cancel₀ hsne, mul_one]
  have h3 : ((jround ((x : ℚ) * s) : ℤ) : ℚ) * s⁻¹ ≤ (x : ℚ) + s⁻¹ * (1/2) := by
    calc ((jround ((x : ℚ) * s) : ℤ) : ℚ) * s⁻¹
        ≤ ((x : ℚ) * s + 1/2) * s⁻¹ := mul_le_mul_of_nonneg_right hy1 (le_of_lt hinv0)
      _ = (x : ℚ) + s⁻¹ * (1/2) := by rw [add_mul, e1]; ring
  have h4 : (x : ℚ) - s⁻¹ * (1/2) < ((jround ((x : ℚ) * s) : ℤ) : ℚ) * s⁻¹ := by
    calc (x : ℚ) - s⁻¹ * (1/2)
        = ((x : ℚ) * s - 1/2) * s⁻¹ := by rw [sub_mul, e1]; ring
      _ < ((jround ((x : ℚ) * s) : ℤ) : ℚ) * s⁻¹ := mul_lt_mul_of_pos_right hy2 hinv0
  have hz1 : ((jround (((jround ((x : ℚ) * s) : ℤ) : ℚ) * s⁻¹) : ℤ) : ℚ) ≤
      ((jround ((x : ℚ) * s) : ℤ) : ℚ) * s⁻¹ + 1/2 := jround_le_real _
  have hz2 : ((jround ((x : ℚ) * s) : ℤ) : ℚ) * s⁻¹ - 1/2 <
      ((jround (((jround ((x : ℚ) * s) : ℤ) : ℚ) * s⁻¹) : ℤ) : ℚ) := jround_gt_real _
  have hzu : ((jround (((jround ((x : ℚ) * s) : ℤ) : ℚ) * s⁻¹) : ℤ) : ℚ) < (x : ℚ) + 2 := by
    linarith
  have hzl : (x : ℚ) - 2 < ((jround (((jround ((x : ℚ) * s) : ℤ) : ℚ) * s⁻¹) : ℤ) : ℚ) := by
    linarith
  have hu : jround (((jround ((x : ℚ) * s) : ℤ) : ℚ) * s⁻¹) < x + 2 := by exact_mod_cast hzu
  have hl : x - 2 < jround (((jround ((x : ℚ) * s) : ℤ) : ℚ) * s⁻¹) := by exact_mod_cast hzl
  rw [abs_le]
  omega

theorem len_roundtrip (n d : ℕ) (v : ℤ) (hd : 0 < d) (hs : d ≤ 2 * n) :
    |toDisplayLen n d ((toNativeLen n d (v : ℚ) : ℤ) : ℚ) - v| ≤ 1 := by
  have hdq : (0:ℚ) < (d : ℚ) := by exact_mod_cast hd
  have hs2 : (1:ℚ)/2 ≤ (n : ℚ) / (d : ℚ) := by
    rw [div_le_div_iff₀ (by norm_num : (0:ℚ) < 2) hdq]
    have h2 : (d : ℚ) ≤ 2 * (n : ℚ) := by exact_mod_cast hs
    linarith
  have key := jround_roundtrip ((n : ℚ) / (d : ℚ)) v hs2
  rw [toDisplayLen, toNativeLen]
  rw [show ((d : ℚ) / (n : ℚ)) = ((n : ℚ) / (d : ℚ))⁻¹ by rw [inv_div]]
  exact key

/-- Claim C1 (code bug).  The claim — and §5 of the specification — require
`disable()` during an active `Creating` gesture to remove every in-flight
document-level listener.  The code's `disable` removes only the
document-level mouseup listener: this theorem shows, on the concrete
gesture `c1gesture`, that after `disable` the document-level mousemove
listener attached by `_handleSelectionStart` is still registered, that a
later pointer-up anywhere does nothing (the mouseup listener is gone, so
the leaked mousemove listener is never removed and the engine stays in
`Creating`), that the leaked handler publishes no change while disabled
(so the claim's "no change event fires" half does hold), and that only
`destroy` actually removes the leaked listener. -/
theorem c1_disable_leaves_creating_mousemove_listener :
    c1gesture.isSelecting = true ∧
    c1gesture.docMouseMove = true ∧
    (disable c1gesture).docMouseMove = true ∧
    (disable c1gesture).docMouseUp = false ∧
    dispatchDocumentMouseUp (disable c1gesture) = disable c1gesture ∧
    documentMouseMoveHandler (disable c1gesture) 500 500 = disable c1gesture ∧
    (destroy (disable c1gesture)).docMouseMove = false := by
  norm_num [c1gesture, handleSelectionStart, enable, disable, destroy,
    dispatchDocumentMouseUp, documentMouseMoveHandler, initialState, publish,
    updateCoordinatesData, jsParseInt, clamp0, jround, toFixed6]

/-- Claim C2, counterexample.  On the concrete `Creating` gesture
`demoGesture` (last recorded move at displayed (300, 150), two payloads
published so far), a pointer-up outside the overlay — handled by
`_documentMouseUpHandler` — publishes nothing at all: the handler clears
`isSelecting` *before* dispatching the synthetic replay mousemove, so the
replay is ignored by the overlay move handler.  Had the last recorded
move been replayed "before the machine returns to Idle", as the claim
states, the replay would have been processed as a `Creating` move and
appended a third payload. -/
theorem c2_document_mouseup_replay_is_inert :
    demoGesture.isSelecting = true ∧
    demoGesture.lastMoveEvent = some (300, 150) ∧
    demoGesture.published.length = 2 ∧
    (documentMouseUpHandler demoGesture).isSelecting = false ∧
    (documentMouseUpHandler demoGesture).published = demoGesture.published := by
  norm_num [demoGesture, handleSelectionStart, documentMouseMoveHandler,
    documentMouseUpHandler, handleSelectionMove, enable, initialState, publish,
    updateCoordinatesData, jsParseInt, clamp0, jround, toFixed6]

/-- Claim C2 (amended).  On document-level pointer-up the machine returns
to `Idle` first and the dispatched replay is ignored, so pointer-up itself
publishes nothing; the rectangle published at the end of the gesture
nevertheless equals the rectangle determined by the final pointer
position, because every move publishes it immediately: after a final
document-level move to `(ex, ey)` followed by the document-level mouseup,
the gesture is over, the document mousemove listener is removed, and the
last published payload is exactly the transform of the rectangle spanned
by the anchor and the clamped final pointer position. -/
theorem c2_creating_finalizes_with_final_pointer_rect
    (s : EngineState) (ex ey : ℚ)
    (hSel : s.isSelecting = true) (hRes : s.isResizing = false)
    (hSrc : s.hasSrc = true) (hEn : s.enabled = true)
    (hnW : s.frame.nativeWidth ≠ 0) (hnH : s.frame.nativeHeight ≠ 0)
    (hdW : 0 < s.frame.displayWidth) (hdH : 0 < s.frame.displayHeight) :
    (documentMouseUpHandler (documentMouseMoveHandler s ex ey)).isSelecting = false ∧
    (documentMouseUpHandler (documentMouseMoveHandler s ex ey)).docMouseMove = false ∧
    (documentMouseUpHandler (documentMouseMoveHandler s ex ey)).published =
      (documentMouseMoveHandler s ex ey).published ∧
    (documentMouseUpHandler (documentMouseMoveHandler s ex ey)).published.getLast? =
      updateCoordinatesData s.hasSrc s.frame
        (min s.startX (clamp0 ex (s.frame.displayWidth : ℚ)))
        (min s.startY (clamp0 ey (s.frame.displayHeight : ℚ)))
        (max 1 |clamp0 ex (s.frame.displayWidth : ℚ) - s.startX|)
        (max 1 |clamp0 ey (s.frame.displayHeight : ℚ) - s.startY|) := by
  obtain ⟨d, hd⟩ : ∃ d, updateCoordinatesData s.hasSrc s.frame
      (min s.startX (clamp0 ex (s.frame.displayWidth : ℚ)))
      (min s.startY (clamp0 ey (s.frame.displayHeight : ℚ)))
      (max 1 |clamp0 ex (s.frame.displayWidth : ℚ) - s.startX|)
      (max 1 |clamp0 ey (s.frame.displayHeight : ℚ) - s.startY|) = some d := by
    simp [updateCoordinatesData, hSrc, hnW, hnH, hdW, hdH]
  rw [hSrc] at hd
  simp only [documentMouseUpHandler, documentMouseMoveHandler, handleSelectionMove,
    publish, hSel, hSrc, hEn, hRes, hd]
  norm_num [hd, List.getLast?_concat]

/-- Witness for C2: the amended finalization theorem applied to the
concrete mid-gesture state `wState` with a final pointer move to (2, 2). -/
theorem c2_creating_finalizes_witness :
    wState.isSelecting = true ∧ wState.isResizing = false ∧
    wState.hasSrc = true ∧ wState.enabled = true ∧
    wState.frame.nativeWidth ≠ 0 ∧ wState.frame.nativeHeight ≠ 0 ∧
    0 < wState.frame.displayWidth ∧ 0 < wState.frame.displayHeight ∧
    ((documentMouseUpHandler (documentMouseMoveHandler wState 2 2)).isSelecting = false ∧
    (documentMouseUpHandler (documentMouseMoveHandler wState 2 2)).docMouseMove = false ∧
    (documentMouseUpHandler (documentMouseMoveHandler wState 2 2)).published =
      (documentMouseMoveHandler wState 2 2).published ∧
    (documentMouseUpHandler (documentMouseMoveHandler wState 2 2)).published.getLast? =
      updateCoordinatesData wState.hasSrc wState.frame
        (min wState.startX (clamp0 2 (wState.frame.displayWidth : ℚ)))
        (min wState.startY (clamp0 2 (wState.frame.displayHeight : ℚ)))
        (max 1 |clamp0 2 (wState.frame.displayWidth : ℚ) - wState.startX|)
        (max 1 |clamp0 2 (wState.frame.displayHeight : ℚ) - wState.startY|)) :=
  ⟨rfl, rfl, rfl, rfl, by norm_num [wState, wFrame], by norm_num [wState, wFrame],
    by norm_num [wState, wFrame], by norm_num [wState, wFrame],
    c2_creating_finalizes_with_final_pointer_rect wState 2 2 rfl rfl rfl rfl
      (by norm_num [wState, wFrame]) (by norm_num [wState, wFrame])
      (by norm_num [wState, wFrame]) (by norm_num [wState, wFrame])⟩

/-- Claim C3, counterexample.  On a 3x3 video displayed at 2x2 (scale
1.5), an NW resize gesture from the full-frame rectangle moves its
pointer to displayed (1, 1) and then to (0, 0).  The published
native-resolution coordinates of the supposedly fixed bottom-right corner
(`videoWidth - absolute.right`, `videoHeight - absolute.bottom`) change
from (4, 4) to (3, 3) between the two moves, because
`round(left * 1.5) + round(width * 1.5)` is not determined by
`left + width` alone — refuting the claim that these coordinates never
change during the gesture. -/
theorem c3_native_opposite_corner_moves :
    ((documentResizeHandler (documentResizeHandler c3base 1 1) 0 0).published.map
      (fun d => ((d.videoWidth : ℚ) - d.absolute.right,
                 (d.videoHeight : ℚ) - d.absolute.bottom))) =
      [(3, 3), (4, 4), (3, 3)] ∧
    ((4 : ℚ), (4 : ℚ)) ≠ ((3 : ℚ), (3 : ℚ)) := by
  norm_num [c3base, handleResizeStart, setSelection, enable, initialState,
    documentResizeHandler, publish, updateCoordinatesData, jsParseInt, clamp0,
    jround, toFixed6]

/-- Claim C3 (amended).  Resizing from any corner handle preserves the
handle's opposite corner exactly in *displayed-pixel* coordinates for
every clamped pointer move (NW fixes the bottom-right displayed corner,
NE the bottom-left, SW the top-right, SE the top-left); the *native*
coordinates of that corner in the published payload are produced by
independent rounding of `left`/`width` (`top`/`height`) and may therefore
drift by one native pixel between moves, as the counterexample shows. -/
theorem c3_resize_preserves_displayed_opposite_corner
    (s : EngineState) (ex ey : ℚ)
    (hR : s.isResizing = true) (hS : s.hasSrc = true) (hE : s.enabled = true) :
    (s.activeHandle = some Handle.nw →
      (documentResizeHandler s ex ey).selectionLeft +
        (documentResizeHandler s ex ey).selectionWidth =
        s.selectionLeft + s.selectionWidth ∧
      (documentResizeHandler s ex ey).selectionTop +
        (documentResizeHandler s ex ey).selectionHeight =
        s.selectionTop + s.selectionHeight) ∧
    (s.activeHandle = some Handle.ne →
      (documentResizeHandler s ex ey).selectionLeft = s.selectionLeft ∧
      (documentResizeHandler s ex ey).selectionTop +
        (documentResizeHandler s ex ey).selectionHeight =
        s.selectionTop + s.selectionHeight) ∧
    (s.activeHandle = some Handle.sw →
      (documentResizeHandler s ex ey).selectionLeft +
        (documentResizeHandler s ex ey).selectionWidth =
        s.selectionLeft + s.selectionWidth ∧
      (documentResizeHandler s ex ey).selectionTop = s.selectionTop) ∧
    (s.activeHandle = some Handle.se →
      (documentResizeHandler s ex ey).selectionLeft = s.selectionLeft ∧
      (documentResizeHandler s ex ey).selectionTop = s.selectionTop) := by
  refine ⟨fun hA => ?_, fun hA => ?_, fun hA => ?_, fun hA => ?_⟩ <;>
    simp only [documentResizeHandler, hA, hR, hS, hE, publish] <;>
    norm_num <;> split_ifs <;> simp_all

/-- Witness for C3: the amended corner-preservation theorem applied to the
concrete NW `Resizing` state `rState` with a pointer move to (1, 1). -/
theorem c3_resize_preserves_witness :
    rState.isResizing = true ∧ rState.hasSrc = true ∧ rState.enabled = true ∧
    ((rState.activeHandle = some Handle.nw →
      (documentResizeHandler rState 1 1).selectionLeft +
        (documentResizeHandler rState 1 1).selectionWidth =
        rState.selectionLeft + rState.selectionWidth ∧
      (documentResizeHandler rState 1 1).selectionTop +
        (documentResizeHandler rState 1 1).selectionHeight =
        rState.selectionTop + rState.selectionHeight) ∧
    (rState.activeHandle = some Handle.ne →
      (documentResizeHandler rState 1 1).selectionLeft = rState.selectionLeft ∧
      (documentResizeHandler rState 1 1).selectionTop +
        (documentResizeHandler rState 1 1).selectionHeight =
        rState.selectionTop + rState.selectionHeight) ∧
    (rState.activeHandle = some Handle.sw →
      (documentResizeHandler rState 1 1).selectionLeft +
        (documentResizeHandler rState 1 1).selectionWidth =
        rState.selectionLeft + rState.selectionWidth ∧
      (documentResizeHandler rState 1 1).selectionTop = rState.selectionTop) ∧
    (rState.activeHandle = some Handle.se →
      (documentResizeHandler rState 1 1).selectionLeft = rState.selectionLeft ∧
      (documentResizeHandler rState 1 1).selectionTop = rState.selectionTop)) :=
  ⟨rfl, rfl, rfl,
    c3_resize_preserves_displayed_opposite_corner rState 1 1 rfl rfl rfl⟩

/-- Claim C4, counterexample.  On a 3x3 video displayed at 2x2, the
rectangle (1, 1, 1, 1) — lying fully inside the displayed box — is
published with `relative.right = -0.333333`, outside [0, 1]:
`round(1*1.5) + round(1*1.5) = 4 > 3`, so the subtraction-derived right
margin is -1 native pixel. -/
theorem c4_relative_right_can_be_negative :
    ((updateCoordinatesData true ⟨3, 3, 2, 2⟩ 1 1 1 1).map
      (fun d => d.relative.right)) = some (-333333/1000000) ∧
    ¬ (0 ≤ (-333333/1000000 : ℚ)) := by
  norm_num [updateCoordinatesData, clamp0, jround, toFixed6]

/-- Claim C4 (amended).  For every rectangle with nonnegative width and
height and every frame with positive native and display dimensions, the
published relative `left`, `top`, `width`, `height` always lie in [0, 1];
the subtraction-derived `right` and `bottom` lie in [-1, 1] and can fall
below 0 — by at most one native pixel (`absolute.right ≥ -1`,
`absolute.bottom ≥ -1`) — because `left + width` (`top + height`) is the
sum of two independently rounded values. -/
theorem c4_relative_bounds (f : Frame) (x y w h : ℚ) (d : SelectionData)
    (hnW : 0 < f.nativeWidth) (hnH : 0 < f.nativeHeight)
    (hdW : 0 < f.displayWidth) (hdH : 0 < f.displayHeight)
    (hw : 0 ≤ w) (hh : 0 ≤ h)
    (hp : updateCoordinatesData true f x y w h = some d) :
    (0 ≤ d.relative.left ∧ d.relative.left ≤ 1) ∧
    (0 ≤ d.relative.top ∧ d.relative.top ≤ 1) ∧
    (0 ≤ d.relative.width ∧ d.relative.width ≤ 1) ∧
    (0 ≤ d.relative.height ∧ d.relative.height ≤ 1) ∧
    (-1 ≤ d.relative.right ∧ d.relative.right ≤ 1) ∧
    (-1 ≤ d.relative.bottom ∧ d.relative.bottom ≤ 1) ∧
    (-1 ≤ d.absolute.right ∧ d.absolute.right ≤ (f.nativeWidth : ℚ)) ∧
    (-1 ≤ d.absolute.bottom ∧ d.absolute.bottom ≤ (f.nativeHeight : ℚ)) := by
  obtain ⟨hx0, hxn, hw0, hwn, hxwn⟩ :=
    axis_bounds f.nativeWidth f.displayWidth x w hnW hdW hw
  obtain ⟨hy0, hyn, hh0, hhn, hyhn⟩ :=
    axis_bounds f.nativeHeight f.displayHeight y h hnH hdH hh
  simp only [updateCoordinatesData] at hp
  split_ifs at hp
  rw [Option.some.injEq] at hp
  subst hp
  refine ⟨toFixed6_div_mem hnW hx0 hxn, toFixed6_div_mem hnH hy0 hyn,
    toFixed6_div_mem hnW hw0 hwn, toFixed6_div_mem hnH hh0 hhn,
    toFixed6_div_mem_neg hnW (by omega) (by omega),
    toFixed6_div_mem_neg hnH (by omega) (by omega), ⟨?_, ?_⟩, ⟨?_, ?_⟩⟩ <;>
  · dsimp only
    norm_cast
    try rw [Int.negSucc_eq]
    omega

/-- Witness for C4: the bounds theorem applied to the full-frame
rectangle (0, 0, 2, 2) on `wFrame`, whose payload is `wData`. -/
theorem c4_relative_bounds_witness :
    updateCoordinatesData true wFrame 0 0 2 2 = some wData ∧
    ((0 ≤ wData.relative.left ∧ wData.relative.left ≤ 1) ∧
    (0 ≤ wData.relative.top ∧ wData.relative.top ≤ 1) ∧
    (0 ≤ wData.relative.width ∧ wData.relative.width ≤ 1) ∧
    (0 ≤ wData.relative.height ∧ wData.relative.height ≤ 1) ∧
    (-1 ≤ wData.relative.right ∧ wData.relative.right ≤ 1) ∧
    (-1 ≤ wData.relative.bottom ∧ wData.relative.bottom ≤ 1) ∧
    (-1 ≤ wData.absolute.right ∧ wData.absolute.right ≤ (wFrame.nativeWidth : ℚ)) ∧
    (-1 ≤ wData.absolute.bottom ∧ wData.absolute.bottom ≤ (wFrame.nativeHeight : ℚ))) :=
  ⟨by norm_num [updateCoordinatesData, wFrame, wData, clamp0, jround, toFixed6],
    c4_relative_bounds wFrame 0 0 2 2 wData (by norm_num [wFrame])
      (by norm_num [wFrame]) (by norm_num [wFrame]) (by norm_num [wFrame])
      (by norm_num) (by norm_num)
      (by norm_num [updateCoordinatesData, wFrame, wData, clamp0, jround, toFixed6])⟩

/-- Claim C5, counterexample.  On a frame with native resolution 1x1
displayed at 10x10 (both positive), the displayed rectangle (4, 4, 2, 2)
lies fully inside the displayed box, yet the `left` field comes back as 0
after the native round trip: `round(4 * 1/10) = 0`, `round(0 * 10) = 0`,
an error of 4 > 1 — refuting the claim for frames whose displayed size
exceeds twice the native size. -/
theorem c5_roundtrip_fails_for_upscaled_display :
    ¬ (|toDisplayLen 1 10 ((toNativeLen 1 10 ((4 : ℤ) : ℚ) : ℤ) : ℚ) - 4| ≤ 1) := by
  norm_num [toNativeLen, toDisplayLen, jround]

/-- Claim C5 (amended).  For every displayed rectangle with integer
fields fully inside the video box and every frame with positive native
and display dimensions in which the displayed size does not exceed twice
the native size on either axis (`displayWidth ≤ 2 * nativeWidth`,
`displayHeight ≤ 2 * nativeHeight`), converting each of
left/top/width/height to native resolution as `getSelection` does and
back to display resolution as `setSelection` does yields a value within 1
unit of the original.  Without the added scale bound the property fails,
as the counterexample shows. -/
theorem c5_roundtrip_within_one (f : Frame) (l t w h : ℤ)
    (hdW : 0 < f.displayWidth) (hdH : 0 < f.displayHeight)
    (hsx : f.displayWidth ≤ 2 * f.nativeWidth)
    (hsy : f.displayHeight ≤ 2 * f.nativeHeight)
    (hl : 0 ≤ l) (ht : 0 ≤ t) (hw : 0 ≤ w) (hh : 0 ≤ h)
    (hlw : l + w ≤ (f.displayWidth : ℤ)) (hth : t + h ≤ (f.displayHeight : ℤ)) :
    |toDisplayLen f.nativeWidth f.displayWidth
        ((toNativeLen f.nativeWidth f.displayWidth (l : ℚ) : ℤ) : ℚ) - l| ≤ 1 ∧
    |toDisplayLen f.nativeHeight f.displayHeight
        ((toNativeLen f.nativeHeight f.displayHeight (t : ℚ) : ℤ) : ℚ) - t| ≤ 1 ∧
    |toDisplayLen f.nativeWidth f.displayWidth
        ((toNativeLen f.nativeWidth f.displayWidth (w : ℚ) : ℤ) : ℚ) - w| ≤ 1 ∧
    |toDisplayLen f.nativeHeight f.displayHeight
        ((toNativeLen f.nativeHeight f.displayHeight (h : ℚ) : ℤ) : ℚ) - h| ≤ 1 :=
  ⟨len_roundtrip f.nativeWidth f.displayWidth l hdW hsx,
    len_roundtrip f.nativeHeight f.displayHeight t hdH hsy,
    len_roundtrip f.nativeWidth f.displayWidth w hdW hsx,
    len_roundtrip f.nativeHeight f.displayHeight h hdH hsy⟩

/-- Witness for C5: the round-trip theorem applied to the rectangle
(0, 0, 1, 1) on `wFrame` (native 2x2 displayed at 2x2). -/
theorem c5_roundtrip_witness :
    0 < wFrame.displayWidth ∧ wFrame.displayWidth ≤ 2 * wFrame.nativeWidth ∧
    (|toDisplayLen wFrame.nativeWidth wFrame.displayWidth
        ((toNativeLen wFrame.nativeWidth wFrame.displayWidth ((0 : ℤ) : ℚ) : ℤ) : ℚ) - 0| ≤ 1 ∧
    |toDisplayLen wFrame.nativeHeight wFrame.displayHeight
        ((toNativeLen wFrame.nativeHeight wFrame.displayHeight ((0 : ℤ) : ℚ) : ℤ) : ℚ) - 0| ≤ 1 ∧
    |toDisplayLen wFrame.nativeWidth wFrame.displayWidth
        ((toNativeLen wFrame.nativeWidth wFrame.displayWidth ((1 : ℤ) : ℚ) : ℤ) : ℚ) - 1| ≤ 1 ∧
    |toDisplayLen wFrame.nativeHeight wFrame.displayHeight
        ((toNativeLen wFrame.nativeHeight wFrame.displayHeight ((1 : ℤ) : ℚ) : ℤ) : ℚ) - 1| ≤ 1) :=
  ⟨by norm_num [wFrame], by norm_num [wFrame],
    c5_roundtrip_within_one wFrame 0 0 1 1 (by norm_num [wFrame])
      (by norm_num [wFrame]) (by norm_num [wFrame]) (by norm_num [wFrame])
      (by norm_num) (by norm_num) (by norm_num) (by norm_num)
      (by norm_num [wFrame]) (by norm_num [wFrame])⟩

/-- Claim C6 (confirmed).  During a `Resizing` gesture, for every clamped
pointer position: the stored width and height after the move are at least
1 displayed pixel (so never 0 or negative); when the computed dimension
for a W-handle (NW/SW) or N-handle (NW/NE) would drop below 1, it is
pinned to exactly 1 and the moving coordinate is recomputed from the
fixed corner; E-handles never move `left` and S-handles never move `top`;
and the fixed displayed corner is preserved, so the rectangle never
crosses its fixed corner and the handle semantics never flip. -/
theorem c6_resize_min_size (s : EngineState) (ex ey : ℚ)
    (hR : s.isResizing = true) (hS : s.hasSrc = true) (hE : s.enabled = true) :
    1 ≤ (documentResizeHandler s ex ey).selectionWidth ∧
    1 ≤ (documentResizeHandler s ex ey).selectionHeight ∧
    (s.activeHandle = some Handle.nw ∨ s.activeHandle = some Handle.sw →
      s.selectionLeft + s.selectionWidth - clamp0 ex (s.frame.displayWidth : ℚ) < 1 →
      (documentResizeHandler s ex ey).selectionWidth = 1 ∧
      (documentResizeHandler s ex ey).selectionLeft =
        s.selectionLeft + s.selectionWidth - 1) ∧
    (s.activeHandle = some Handle.nw ∨ s.activeHandle = some Handle.ne →
      s.selectionTop + s.selectionHeight - clamp0 ey (s.frame.displayHeight : ℚ) < 1 →
      (documentResizeHandler s ex ey).selectionHeight = 1 ∧
      (documentResizeHandler s ex ey).selectionTop =
        s.selectionTop + s.selectionHeight - 1) ∧
    (s.activeHandle = some Handle.ne ∨ s.activeHandle = some Handle.se →
      (documentResizeHandler s ex ey).selectionLeft = s.selectionLeft) ∧
    (s.activeHandle = some Handle.sw ∨ s.activeHandle = some Handle.se →
      (documentResizeHandler s ex ey).selectionTop = s.selectionTop) ∧
    (s.activeHandle = some Handle.nw ∨ s.activeHandle = some Handle.sw →
      (documentResizeHandler s ex ey).selectionLeft +
        (documentResizeHandler s ex ey).selectionWidth =
        s.selectionLeft + s.selectionWidth) ∧
    (s.activeHandle = some Handle.nw ∨ s.activeHandle = some Handle.ne →
      (documentResizeHandler s ex ey).selectionTop +
        (documentResizeHandler s ex ey).selectionHeight =
        s.selectionTop + s.selectionHeight) := by
  refine ⟨?_, ?_, ?_, ?_, ?_, ?_, ?_, ?_⟩
  · rcases hA : s.activeHandle with _ | h
    · simp only [documentResizeHandler, hA, hR, hS, hE, publish]
      norm_num
      split_ifs <;> simp_all
    · cases h <;>
        simp only [documentResizeHandler, hA, hR, hS, hE, publish] <;>
        norm_num <;> split_ifs <;> simp_all
  · rcases hA : s.activeHandle with _ | h
    · simp only [documentResizeHandler, hA, hR, hS, hE, publish]
      norm_num
      split_ifs <;> simp_all
    · cases h <;>
        simp only [documentResizeHandler, hA, hR, hS, hE, publish] <;>
        norm_num <;> split_ifs <;> simp_all
  all_goals
    rintro (hA | hA) <;>
      simp only [documentResizeHandler, hA, hR, hS, hE, publish] <;>
      norm_num <;> intros <;> split_ifs <;> simp_all

/-- Witness for C6: the minimum-size theorem applied to the concrete NW
`Resizing` state `rState` with the pointer dragged to (2, 2) — past the
fixed bottom-right corner minus one pixel, so both clamps engage. -/
theorem c6_resize_min_size_witness :
    rState.isResizing = true ∧ rState.hasSrc = true ∧ rState.enabled = true ∧
    (1 ≤ (documentResizeHandler rState 2 2).selectionWidth ∧
    1 ≤ (documentResizeHandler rState 2 2).selectionHeight ∧
    (rState.activeHandle = some Handle.nw ∨ rState.activeHandle = some Handle.sw →
      rState.selectionLeft + rState.selectionWidth -
        clamp0 2 (rState.frame.displayWidth : ℚ) < 1 →
      (documentResizeHandler rState 2 2).selectionWidth = 1 ∧
      (documentResizeHandler rState 2 2).selectionLeft =
        rState.selectionLeft + rState.selectionWidth - 1) ∧
    (rState.activeHandle = some Handle.nw ∨ rState.activeHandle = some Handle.ne →
      rState.selectionTop + rState.selectionHeight -
        clamp0 2 (rState.frame.displayHeight : ℚ) < 1 →
      (documentResizeHandler rState 2 2).selectionHeight = 1 ∧
      (documentResizeHandler rState 2 2).selectionTop =
        rState.selectionTop + rState.selectionHeight - 1) ∧
    (rState.activeHandle = some Handle.ne ∨ rState.activeHandle = some Handle.se →
      (documentResizeHandler rState 2 2).selectionLeft = rState.selectionLeft) ∧
    (rState.activeHandle = some Handle.sw ∨ rState.activeHandle = some Handle.se →
      (documentResizeHandler rState 2 2).selectionTop = rState.selectionTop) ∧
    (rState.activeHandle = some Handle.nw ∨ rState.activeHandle = some Handle.sw →
      (documentResizeHandler rState 2 2).selectionLeft +
        (documentResizeHandler rState 2 2).selectionWidth =
        rState.selectionLeft + rState.selectionWidth) ∧
    (rState.activeHandle = some Handle.nw ∨ rState.activeHandle = some Handle.ne →
      (documentResizeHandler rState 2 2).selectionTop +
        (documentResizeHandler rState 2 2).selectionHeight =
        rState.selectionTop + rState.selectionHeight)) :=
  ⟨rfl, rfl, rfl, c6_resize_min_size rState 2 2 rfl rfl rfl⟩

/-- Claim C7 (confirmed).  On a 1920x1080 video displayed at 960x540, the
create drag from displayed (100, 50) to (300, 150) stores the displayed
rectangle (left 100, top 50, width 200, height 100) and the last
published payload has exactly the claimed absolute and relative groups:
absolute (200, 100, 400, 200, 1320, 780) and relative (0.104167,
0.092593, 0.208333, 0.185185, 0.6875, 0.722222). -/
theorem c7_scenario_published_data :
    demoGesture.selectionLeft = 100 ∧ demoGesture.selectionTop = 50 ∧
    demoGesture.selectionWidth = 200 ∧ demoGesture.selectionHeight = 100 ∧
    demoGesture.published.getLast? = some
      { absolute := ⟨200, 100, 400, 200, 1320, 780⟩
        relative := ⟨104167/1000000, 92593/1000000, 208333/1000000,
                     185185/1000000, 6875/10000, 722222/1000000⟩
        videoWidth := 1920
        videoHeight := 1080 } := by
  norm_num [demoGesture, handleSelectionStart, documentMouseMoveHandler,
    enable, initialState, publish, updateCoordinatesData, jsParseInt, clamp0,
    jround, toFixed6, List.getLast?]

/-- Claim C8 (confirmed).  For every engine state with a visible selection
and known native and display dimensions, `clearSelection()` followed by
`getSelection()` returns `none`, and `clearSelection()` itself publishes
nothing. -/
theorem c8_clear_then_get_none (s : EngineState)
    (hBox : s.boxVisible = true)
    (hnW : s.frame.nativeWidth ≠ 0) (hnH : s.frame.nativeHeight ≠ 0)
    (hdW : 0 < s.frame.displayWidth) (hdH : 0 < s.frame.displayHeight) :
    getSelection (clearSelection s) = none ∧
    (clearSelection s).published = s.published := by
  constructor
  · simp [getSelection, clearSelection]
  · rfl

/-- Witness for C8: the clear-then-get theorem applied to the concrete
state `wState` (visible 1x1 selection, 2x2 native and display). -/
theorem c8_clear_then_get_none_witness :
    wState.boxVisible = true ∧ wState.frame.nativeWidth ≠ 0 ∧
    0 < wState.frame.displayWidth ∧
    (getSelection (clearSelection wState) = none ∧
      (clearSelection wState).published = wState.published) :=
  ⟨rfl, by norm_num [wState, wFrame], by norm_num [wState, wFrame],
    c8_clear_then_get_none wState rfl (by norm_num [wState, wFrame])
      (by norm_num [wState, wFrame]) (by norm_num [wState, wFrame])
      (by norm_num [wState, wFrame])⟩

/-- Claim C9 (confirmed).  Every `SelectionData` produced, whether through
the `onChange` path (`_updateCoordinates`) or through `getSelection`,
satisfies `absolute.left + absolute.width + absolute.right = video.width`
and `absolute.top + absolute.height + absolute.bottom = video.height`
exactly, because the right and bottom margins are derived by subtracting
the already-rounded `left + width` and `top + height` from the native
dimensions. -/
theorem c9_absolute_partition_exact (src : Bool) (f : Frame) (x y w h : ℚ)
    (d : SelectionData)
    (hp : updateCoordinatesData src f x y w h = some d ∨
      getSelectionData src f x y w h = some d) :
    d.absolute.left + d.absolute.width + d.absolute.right = (d.videoWidth : ℚ) ∧
    d.absolute.top + d.absolute.height + d.absolute.bottom = (d.videoHeight : ℚ) := by
  rcases hp with hp | hp
  · rw [updateCoordinatesData] at hp
    split_ifs at hp
    rw [Option.some.injEq] at hp
    subst hp
    constructor <;> push_cast <;> ring
  · rw [getSelectionData] at hp
    split_ifs at hp
    rw [Option.some.injEq] at hp
    subst hp
    constructor <;> push_cast <;> ring

/-- Witness for C9: the partition theorem applied to the payload `wData`
produced for the full-frame rectangle on `wFrame`. -/
theorem c9_absolute_partition_witness :
    updateCoordinatesData true wFrame 0 0 2 2 = some wData ∧
    (wData.absolute.left + wData.absolute.width + wData.absolute.right =
      (wData.videoWidth : ℚ) ∧
    wData.absolute.top + wData.absolute.height + wData.absolute.bottom =
      (wData.videoHeight : ℚ)) :=
  ⟨by norm_num [updateCoordinatesData, wFrame, wData, clamp0, jround, toFixed6],
    c9_absolute_partition_exact true wFrame 0 0 2 2 wData
      (Or.inl (by norm_num [updateCoordinatesData, wFrame, wData, clamp0,
        jround, toFixed6]))⟩

/-- Claim C10 (confirmed).  For every rectangle lying fully inside the
displayed video box (nonnegative position and size, far edges within the
box) and every frame with positive native and display dimensions, the
transform implemented in `getSelection` and the transform implemented in
`_updateCoordinates` produce exactly the same `SelectionData`: the
clamping performed only by `_updateCoordinates` is the identity on
in-bounds inputs, and the remaining arithmetic of the two independently
written code paths is identical. -/
theorem c10_get_selection_agrees_with_update_coordinates
    (f : Frame) (x y w h : ℚ)
    (hx : 0 ≤ x) (hy : 0 ≤ y) (hw : 0 ≤ w) (hh : 0 ≤ h)
    (hxw : x + w ≤ (f.displayWidth : ℚ)) (hyh : y + h ≤ (f.displayHeight : ℚ)) :
    getSelectionData true f x y w h = updateCoordinatesData true f x y w h := by
  have hxd : x ≤ (f.displayWidth : ℚ) := by linarith
  have hyd : y ≤ (f.displayHeight : ℚ) := by linarith
  simp only [getSelectionData, updateCoordinatesData, clamp0]
  rw [max_eq_right hx, min_eq_left hxd, max_eq_right hy, min_eq_left hyd,
    min_eq_left (by linarith : w ≤ (f.displayWidth : ℚ) - x),
    min_eq_left (by linarith : h ≤ (f.displayHeight : ℚ) - y)]

/-- Witness for C10: the agreement theorem applied to the in-bounds
rectangle (0, 0, 1, 1) on `wFrame`. -/
theorem c10_agreement_witness :
    (0 : ℚ) ≤ 1 ∧ (0 : ℚ) + 1 ≤ (wFrame.displayWidth : ℚ) ∧
    getSelectionData true wFrame 0 0 1 1 = updateCoordinatesData true wFrame 0 0 1 1 :=
  ⟨by norm_num, by norm_num [wFrame],
    c10_get_selection_agrees_with_update_coordinates wFrame 0 0 1 1
      (by norm_num) (by norm_num) (by norm_num) (by norm_num)
      (by norm_num [wFrame]) (by norm_num [wFrame])⟩

end VideoAreaSelector
